import Mathlib

/-!
Verification of the Swing-Analyzer repository's 3D biomechanics engine
(`src/biomechanics_3d_analyzer.py`, class `Biomechanics3DAnalyzer`), checked
against the natural-language specification.

Modelling conventions:
* Python floats are modelled as exact rationals (`ℚ`); decimal literals such
  as `0.4` denote the exact rational the source text writes.
* The three transcendental library primitives the engine calls —
  the square root inside `np.linalg.norm` / `_distance_3d`,
  `math.degrees(math.acos ...)` in `_calculate_spine_tilt`, and
  `math.degrees(math.atan2 ...)` in `_calculate_segment_rotation` — are
  abstracted as fields of a `Geom` parameter.  Every universally quantified
  theorem below holds for *every* `Geom`, hence in particular for the true
  Euclidean instantiation.  Concrete counterexample inputs are chosen so that
  only rational values of these primitives are exercised (axis-aligned
  vectors, 45-degree directions), and the surrogate `gmQ` used there is
  pinned to the true mathematical values on those inputs by bridging lemmas.
* The one algebraic rewriting: the source tests `np.abs(a) > 2 * np.std(d)`;
  since both sides are nonnegative this is equivalent to `a ^ 2 > 4 * var d`
  where `var` is the population variance (`np.std ^ 2`), which is rational.
  The equivalence is proved as `abs_gt_two_std_iff_sq` below.
* `dict` access `pose_data['pose_sequence']` is modelled with an `Option`
  field; a missing key (Python `KeyError`) surfaces as `none` from the
  top-level `analyze_swing_3d`.
-/

namespace Swing

/-- 3D point / vector, the `(x, y, z)` tuples of the source. -/
abbrev Vec3 := ℚ × ℚ × ℚ

/-- One landmark record as produced by the pose estimator: a joint name and a
3D position.  The `visibility` field of the source data is never read by the
analyzer and is omitted. -/
structure Landmark where
  joint_name : String
  x : ℚ
  y : ℚ
  z : ℚ
deriving DecidableEq, Repr

/-- One frame of the pose sequence.  The analyzer only ever reads the
`landmarks_3d` list of a frame; `frame_index` / `timestamp` are unused. -/
structure Frame where
  landmarks_3d : List Landmark
deriving DecidableEq, Repr

/-- The `pose_data` dictionary handed to `analyze_swing_3d`.  The analyzer
reads only the key `'pose_sequence'`; the historical key `'poses'` (required
by `_load_and_validate_pose_data` in `swing_analysis_prototype.py`) is carried
to state claim C8.  A `none` field models an absent key. -/
structure PoseData where
  pose_sequence : Option (List Frame)
  poses : Option (List Frame)
deriving DecidableEq, Repr

/-- Abstraction of the transcendental primitives used by the engine:
`sqrtA q` stands for `math.sqrt q` (and the square root inside
`np.linalg.norm`), `acosDeg c` for `math.degrees(math.acos c)`, and
`atan2Deg y x` for `math.degrees(math.atan2 y x)`. -/
structure Geom where
  sqrtA : ℚ → ℚ
  acosDeg : ℚ → ℚ
  atan2Deg : ℚ → ℚ → ℚ

/-! ### Joint-name string constants (MediaPipe vocabulary used by the source) -/

def nmNose : String := "nose"
def nmLeftShoulder : String := "left_shoulder"
def nmRightShoulder : String := "right_shoulder"
def nmLeftWrist : String := "left_wrist"
def nmRightWrist : String := "right_wrist"
def nmLeftHip : String := "left_hip"
def nmRightHip : String := "right_hip"
def nmLeftAnkle : String := "left_ankle"
def nmRightAnkle : String := "right_ankle"

/-! ### Numeric helpers (`np.mean`, `np.std`, `np.diff`, `np.argmax`) -/

/-- `np.mean` of a list.  (On the empty list the source would produce `nan`;
every use in the engine is guarded by a nonemptiness check, and `0` here is
never observed.) -/
def mean (l : List ℚ) : ℚ := l.sum / l.length

/-- Population variance, i.e. `np.std(l) ** 2` (numpy's default `ddof=0`). -/
def variance (l : List ℚ) : ℚ := mean (l.map fun a => (a - mean l) ^ 2)

/-- `np.diff`: consecutive differences `l[i+1] - l[i]`. -/
def diffs (l : List ℚ) : List ℚ := List.zipWith (fun b a => b - a) l.tail l

/-- Inner loop of `argmaxIdx`: `best`/`bestI` track the running maximum and
its index, `i` is the index of the head of the remaining list. -/
def argmaxAux (best : ℚ) (bestI i : ℕ) : List ℚ → ℕ
  | [] => bestI
  | a :: rest => if best < a then argmaxAux a i (i + 1) rest
                 else argmaxAux best bestI (i + 1) rest

/-- `np.argmax`: index of the first occurrence of the maximum (0 on `[]`,
matching numpy's error case never being reached in guarded code). -/
def argmaxIdx : List ℚ → ℕ
  | [] => 0
  | a :: rest => argmaxAux a 0 1 rest

/-! ### `scipy.signal.find_peaks`

The engine calls `find_peaks(vel_magnitude, height=np.mean(vel_magnitude))`.
scipy's `_local_maxima_1d` scans `i = 1 .. n-2`; on a rise `x[i-1] < x[i]` it
advances `i_ahead` over the plateau of samples equal to `x[i]` (stopping at
`i_max = n-1`), and if `x[i_ahead] < x[i]` records the plateau midpoint
`(i + (i_ahead - 1)) // 2` and resumes at `i_ahead + 1`.  The `height` filter
keeps peaks with `x[p] >= height`.  The recursions below use an explicit fuel
argument (`x.length` bounds the number of loop iterations, since the scan
index strictly increases each step). -/

/-- scipy's inner plateau scan: first index `j' ≥ j` with `j' = iMax` or
`x[j'] ≠ v`. -/
def plateau_scan (x : List ℚ) (iMax : ℕ) (v : ℚ) : ℕ → ℕ → ℕ
  | 0, j => j
  | fuel + 1, j =>
    if j < iMax ∧ x.getD j 0 = v then plateau_scan x iMax v fuel (j + 1) else j

/-- scipy's `_local_maxima_1d` main loop, at scan position `i`. -/
def local_maxima_aux (x : List ℚ) : ℕ → ℕ → List ℕ
  | 0, _ => []
  | fuel + 1, i =>
    if i + 1 < x.length then
      if x.getD (i - 1) 0 < x.getD i 0 then
        if x.getD (plateau_scan x (x.length - 1) (x.getD i 0) x.length (i + 1)) 0
            < x.getD i 0 then
          (i + (plateau_scan x (x.length - 1) (x.getD i 0) x.length (i + 1) - 1)) / 2
            :: local_maxima_aux x fuel
                (plateau_scan x (x.length - 1) (x.getD i 0) x.length (i + 1) + 1)
        else local_maxima_aux x fuel (i + 1)
      else local_maxima_aux x fuel (i + 1)
    else []

/-- All strict local maxima (plateau midpoints) of `x`, in increasing order. -/
def local_maxima_1d (x : List ℚ) : List ℕ := local_maxima_aux x x.length 1

/-- `scipy.signal.find_peaks(x, height=h)`: local maxima whose value is at
least `h`. -/
def find_peaks (x : List ℚ) (h : ℚ) : List ℕ :=
  (local_maxima_1d x).filter fun p => h ≤ x.getD p 0

/-! ### Trajectory extraction and differential kinematics
(`_extract_joint_trajectory`, `_calculate_velocity`, `_calculate_acceleration`,
helper geometry) -/

/-- `_extract_joint_trajectory`: the `(x, y, z)` of the *first* landmark named
`joint_name` in each frame (the source `break`s after the first match); frames
without the joint are skipped. -/
def extract_joint_trajectory (seq : List Frame) (nm : String) : List Vec3 :=
  seq.filterMap fun f =>
    (f.landmarks_3d.find? fun lm => lm.joint_name == nm).map fun lm => (lm.x, lm.y, lm.z)

/-- `_calculate_velocity`: `(p[i] - p[i-1]) / dt` with `dt = 1/30`, i.e.
componentwise difference times 30. -/
def calculate_velocity (ps : List Vec3) : List Vec3 :=
  List.zipWith (fun b a => ((b.1 - a.1) * 30, (b.2.1 - a.2.1) * 30, (b.2.2 - a.2.2) * 30))
    ps.tail ps

/-- `_calculate_acceleration`: same finite difference applied to velocities.
(The source computes accelerations inside `_identify_swing_phases` and never
uses them; they are kept here for completeness.) -/
def calculate_acceleration (vs : List Vec3) : List Vec3 := calculate_velocity vs

/-- `np.linalg.norm` of a 3-vector: the abstracted square root applied to the
sum of squares. -/
def norm3 (gm : Geom) (v : Vec3) : ℚ := gm.sqrtA (v.1 ^ 2 + v.2.1 ^ 2 + v.2.2 ^ 2)

/-- The landmark dictionary `{lm['joint_name']: lm for lm in ...}` followed by
a key lookup: the *last* landmark with the given name wins, as in a Python
dict comprehension. -/
def lookupLm (lms : List Landmark) (nm : String) : Option Landmark :=
  (lms.filter fun lm => lm.joint_name == nm).getLast?

/-- `_calculate_midpoint_3d`. -/
def calculate_midpoint_3d (p q : Landmark) : Vec3 :=
  ((p.x + q.x) / 2, (p.y + q.y) / 2, (p.z + q.z) / 2)

/-- `_distance_3d`: square root of the sum of squared coordinate differences. -/
def distance_3d (gm : Geom) (p q : Vec3) : ℚ :=
  gm.sqrtA ((p.1 - q.1) ^ 2 + (p.2.1 - q.2.1) ^ 2 + (p.2.2 - q.2.2) ^ 2)

/-- `_calculate_spine_tilt`: angle (degrees) between the hip-midpoint→head
vector and the vertical, `acos(clamp(z / magnitude, -1, 1))`; zero-magnitude
vectors yield 0. -/
def calculate_spine_tilt (gm : Geom) (head lh rh : Landmark) : ℚ :=
  let hc := calculate_midpoint_3d lh rh
  let sx := head.x - hc.1
  let sy := head.y - hc.2.1
  let sz := head.z - hc.2.2
  let m := gm.sqrtA (sx ^ 2 + sy ^ 2 + sz ^ 2)
  if m = 0 then 0 else gm.acosDeg (max (-1) (min 1 (sz / m)))

/-- Body segment selector for `_calculate_segment_rotation`. -/
inductive Segment
  | hips
  | shoulders
deriving DecidableEq, Repr

/-- `_calculate_segment_rotation`: per frame, the planar orientation (degrees)
of the segment's left→right line, `atan2(left.y - right.y, left.x - right.x)`;
frames missing either landmark are skipped. -/
def calculate_segment_rotation (gm : Geom) (seq : List Frame) (seg : Segment) : List ℚ :=
  seq.filterMap fun f =>
    match seg with
    | .hips =>
      match lookupLm f.landmarks_3d nmLeftHip, lookupLm f.landmarks_3d nmRightHip with
      | some lh, some rh => some (gm.atan2Deg (lh.y - rh.y) (lh.x - rh.x))
      | _, _ => none
    | .shoulders =>
      match lookupLm f.landmarks_3d nmLeftShoulder, lookupLm f.landmarks_3d nmRightShoulder with
      | some ls, some rs => some (gm.atan2Deg (ls.y - rs.y) (ls.x - rs.x))
      | _, _ => none

/-! ### Phase segmentation (`_identify_swing_phases`) -/

/-- One phase's `{'start': ..., 'end': ...}` record; `stop` renders the
source's `end` key (a Lean keyword). -/
structure PhaseRange where
  start : ℕ
  stop : ℕ
deriving DecidableEq, Repr

/-- The six-entry phase dictionary. -/
structure Phases where
  stance : PhaseRange
  load : PhaseRange
  stride : PhaseRange
  swing : PhaseRange
  contact : PhaseRange
  follow_through : PhaseRange
deriving DecidableEq, Repr

/-- The initial all-zero phase dictionary built at the top of
`_identify_swing_phases` (returned unchanged when fewer than 11 velocity
samples exist or no peak is found). -/
def allZeroPhases : Phases :=
  { stance := ⟨0, 0⟩, load := ⟨0, 0⟩, stride := ⟨0, 0⟩,
    swing := ⟨0, 0⟩, contact := ⟨0, 0⟩, follow_through := ⟨0, 0⟩ }

/-- The phase boundaries assigned when a peak was found: `total` is
`len(sequence)`, `c` the contact frame `peaks[0]`.  Straight transcription of
lines 121–144 of the source, including the sequential dictionary updates. -/
def buildPhases (total c : ℕ) : Phases :=
  { stance := ⟨0, min (total / 4) 15⟩,
    load := ⟨min (total / 4) 15, min (total / 3) 20⟩,
    stride := ⟨min (total / 3) 20, min (total / 2) 30⟩,
    swing := ⟨min (total / 2) 30, c⟩,
    contact := ⟨c, min (c + 3) (total - 5)⟩,
    follow_through := ⟨min (c + 3) (total - 5), total - 1⟩ }

/-- The wrist trajectory used by `_identify_swing_phases`: the right wrist,
falling back to the left wrist when the right one is absent from every frame. -/
def wristTrajectory (seq : List Frame) : List Vec3 :=
  let r := extract_joint_trajectory seq nmRightWrist
  if r = [] then extract_joint_trajectory seq nmLeftWrist else r

/-- `_identify_swing_phases`.  Returns `none` for the source's `{}` (empty
sequence, or no wrist trajectory) and `some` of the six-entry dictionary
otherwise. -/
def identify_swing_phases (gm : Geom) (seq : List Frame) : Option Phases :=
  if seq = [] then none
  else if wristTrajectory seq = [] then none
  else if 10 < (calculate_velocity (wristTrajectory seq)).length then
    match find_peaks ((calculate_velocity (wristTrajectory seq)).map (norm3 gm))
        (mean ((calculate_velocity (wristTrajectory seq)).map (norm3 gm))) with
    | [] => some allZeroPhases
    | c :: _ => some (buildPhases seq.length c)
  else some allZeroPhases

/-! ### Kinematic sequence analysis (`_analyze_kinematic_sequence`) -/

/-- The `energy_transfer` tag; the source uses the strings `'optimal'`,
`'good'`, `'poor'`, `'reverse'`. -/
inductive EnergyTransfer
  | optimal
  | good
  | poor
  | reverse
deriving DecidableEq, Repr

/-- The kinematic-sequence result dictionary. -/
structure KinematicSequence where
  hip_initiation_time : ℕ
  shoulder_initiation_time : ℕ
  hip_peak_velocity : ℚ
  shoulder_peak_velocity : ℚ
  sequence_efficiency : ℕ
  energy_transfer : EnergyTransfer
deriving DecidableEq, Repr

/-- The default result built at the top of `_analyze_kinematic_sequence`
(note the degenerate `'optimal'` default). -/
def kinDefault : KinematicSequence :=
  { hip_initiation_time := 0, shoulder_initiation_time := 0,
    hip_peak_velocity := 0, shoulder_peak_velocity := 0,
    sequence_efficiency := 0, energy_transfer := .optimal }

/-- Indices where a segment's rotation starts accelerating:
`np.where(np.abs(d) > 2 * np.std(d))[0]` for `d = np.diff(rot)`.  Since both
sides of the comparison are nonnegative, `|d i| > 2·std d` is tested in the
equivalent squared form `(d i)^2 > 4 · var d` (see `abs_gt_two_std_iff_sq`),
keeping the computation rational. -/
def initiation_indices (rot : List ℚ) : List ℕ :=
  let d := diffs rot
  let thrSq := 4 * variance d
  (List.range d.length).filter fun i => thrSq < d.getD i 0 ^ 2

/-- Body of `_analyze_kinematic_sequence` after the two rotation series have
been extracted (source lines 156–195). -/
def kinCore (hip_rotation shoulder_rotation : List ℚ) : KinematicSequence :=
  if hip_rotation = [] ∨ shoulder_rotation = [] then kinDefault
  else
    match initiation_indices hip_rotation, initiation_indices shoulder_rotation with
    | h0 :: _, s0 :: _ =>
      if h0 < s0 then
        { kinDefault with
          hip_initiation_time := h0, shoulder_initiation_time := s0,
          sequence_efficiency := min 100 ((s0 - h0) * 10),
          energy_transfer :=
            if 2 ≤ s0 - h0 then .optimal
            else if 1 ≤ s0 - h0 then .good
            else .poor }
      else
        { kinDefault with
          hip_initiation_time := h0, shoulder_initiation_time := s0,
          energy_transfer := .reverse }
    | _, _ => kinDefault

/-- `_analyze_kinematic_sequence`. -/
def analyze_kinematic_sequence (gm : Geom) (seq : List Frame) : KinematicSequence :=
  kinCore (calculate_segment_rotation gm seq .hips)
    (calculate_segment_rotation gm seq .shoulders)

/-! ### Spatial metrics (`_analyze_spatial_mechanics`) -/

/-- The spatial-analysis dictionary; `weight_distribution` is never appended
to and `bat_path_efficiency` never changed by the source. -/
structure SpatialAnalysis where
  hip_shoulder_separation : List ℚ
  spine_tilt : List ℚ
  stance_width : List ℚ
  weight_distribution : List ℚ
  bat_path_efficiency : ℚ
deriving DecidableEq, Repr

/-- `_analyze_spatial_mechanics`: one pass per frame appending to three
independent series; a frame missing a metric's landmarks is skipped for that
metric only.  (The source's single loop appends to the three lists
independently, which equals three `filterMap` passes.) -/
def analyze_spatial_mechanics (gm : Geom) (seq : List Frame) : SpatialAnalysis :=
  { hip_shoulder_separation := seq.filterMap fun f =>
      match lookupLm f.landmarks_3d nmLeftHip, lookupLm f.landmarks_3d nmRightHip,
            lookupLm f.landmarks_3d nmLeftShoulder, lookupLm f.landmarks_3d nmRightShoulder with
      | some lh, some rh, some ls, some rs =>
        some (distance_3d gm (calculate_midpoint_3d lh rh) (calculate_midpoint_3d ls rs))
      | _, _, _, _ => none,
    spine_tilt := seq.filterMap fun f =>
      match lookupLm f.landmarks_3d nmNose, lookupLm f.landmarks_3d nmLeftHip,
            lookupLm f.landmarks_3d nmRightHip with
      | some nose, some lh, some rh => some (calculate_spine_tilt gm nose lh rh)
      | _, _, _ => none,
    stance_width := seq.filterMap fun f =>
      match lookupLm f.landmarks_3d nmLeftAnkle, lookupLm f.landmarks_3d nmRightAnkle with
      | some la, some ra => some |la.x - ra.x|
      | _, _ => none,
    weight_distribution := [],
    bat_path_efficiency := 0 }

/-! ### Temporal metrics (`_analyze_temporal_mechanics`) -/

/-- The temporal-analysis dictionary. -/
structure TemporalAnalysis where
  total_swing_time : ℚ
  acceleration_phase_duration : ℚ
  deceleration_phase_duration : ℚ
  timing_efficiency : ℚ
deriving DecidableEq, Repr

/-- The all-zero temporal result. -/
def zeroTemporal : TemporalAnalysis := ⟨0, 0, 0, 0⟩

/-- `_analyze_temporal_mechanics`.  Note: only the *right* wrist is used here
(no left-wrist fallback), and `total_swing_time` is set before the trajectory
check, so it is nonzero for any nonempty sequence. -/
def analyze_temporal_mechanics (gm : Geom) (seq : List Frame) : TemporalAnalysis :=
  if seq = [] then zeroTemporal
  else
    let total_swing_time : ℚ := (seq.length : ℚ) / 30
    if extract_joint_trajectory seq nmRightWrist = [] then
      { zeroTemporal with total_swing_time := total_swing_time }
    else
      let vel_magnitudes :=
        (calculate_velocity (extract_joint_trajectory seq nmRightWrist)).map (norm3 gm)
      if vel_magnitudes = [] then
        { zeroTemporal with total_swing_time := total_swing_time }
      else
        { total_swing_time := total_swing_time,
          acceleration_phase_duration := (argmaxIdx vel_magnitudes : ℚ) / 30,
          deceleration_phase_duration :=
            ((vel_magnitudes.length - argmaxIdx vel_magnitudes : ℕ) : ℚ) / 30,
          timing_efficiency := 0 }

/-! ### Issue detection (`_detect_3d_issues`) -/

/-- The closed vocabulary of issue strings the detector can emit:
`insufficientSeparation` = "Insufficient 3D hip-shoulder separation",
`excessiveSeparation` = "Excessive hip-shoulder separation",
`reverseKinematicSequence` = "Reverse kinematic sequence - shoulders leading hips",
`poorKinematicTiming` = "Poor kinematic sequence timing",
`insufficientSpineTilt` = "Insufficient spine tilt",
`excessiveSpineTilt` = "Excessive spine tilt",
`narrowStance` = "Narrow stance detected",
`wideStance` = "Overly wide stance". -/
inductive Issue
  | insufficientSeparation
  | excessiveSeparation
  | reverseKinematicSequence
  | poorKinematicTiming
  | insufficientSpineTilt
  | excessiveSpineTilt
  | narrowStance
  | wideStance
deriving DecidableEq, Repr

/-- A `[min, max]` reference range from `ideal_metrics`. -/
structure IdealRange where
  lo : ℚ
  hi : ℚ
deriving DecidableEq, Repr

/-- The two entries of `self.ideal_metrics` the engine actually reads
(`hip_shoulder_separation_3d` and `spine_tilt_deg`); the other keys of the
defaults table are never consulted by the analysis path. -/
structure IdealMetrics where
  hip_shoulder_separation_3d : IdealRange
  spine_tilt_deg : IdealRange
deriving DecidableEq, Repr

/-- The built-in default metrics used when `biomechanics_ideal.json` is
absent: separation `[0.15, 0.35]` m (= `[3/20, 7/20]`), spine tilt `[10, 25]`
degrees.  (Decimal literals are written as the exact fractions they denote,
since `Rat.ofScientific` does not reduce in the kernel.) -/
def defaultIdealMetrics : IdealMetrics :=
  { hip_shoulder_separation_3d := ⟨3/20, 7/20⟩, spine_tilt_deg := ⟨10, 25⟩ }

/-- `_detect_3d_issues`.  The source signature also receives `pose_data`,
which the body never reads; the inputs are the spatial series and the
kinematic result from `analysis`, plus `self.ideal_metrics`.  The stance
thresholds are the source's literals `0.3` and `0.8` (meters), written as the
exact fractions `3/10` and `4/5`. -/
def detect_3d_issues (cfg : IdealMetrics) (spatial : SpatialAnalysis)
    (kin : KinematicSequence) : List Issue :=
  (if spatial.hip_shoulder_separation ≠ [] then
    if mean spatial.hip_shoulder_separation < cfg.hip_shoulder_separation_3d.lo then
      [.insufficientSeparation]
    else if cfg.hip_shoulder_separation_3d.hi < mean spatial.hip_shoulder_separation then
      [.excessiveSeparation]
    else []
  else []) ++
  (if kin.energy_transfer = .reverse then [.reverseKinematicSequence]
   else if kin.energy_transfer = .poor then [.poorKinematicTiming]
   else []) ++
  (if spatial.spine_tilt ≠ [] then
    if mean spatial.spine_tilt < cfg.spine_tilt_deg.lo then [.insufficientSpineTilt]
    else if cfg.spine_tilt_deg.hi < mean spatial.spine_tilt then [.excessiveSpineTilt]
    else []
  else []) ++
  (if spatial.stance_width ≠ [] then
    if mean spatial.stance_width < 3/10 then [.narrowStance]
    else if 4/5 < mean spatial.stance_width then [.wideStance]
    else []
  else [])

/-! ### Recommendations (`_generate_recommendations`) -/

/-- A recommendation bundle.  The source's static table maps exactly four
issue strings to fixed bundles; every other issue receives the generic bundle
embedding the issue text.  The drill/exercise text lists are fixed data and
are represented by the bundle's identity. -/
inductive Recommendation
  | separationBundle
  | reverseSequenceBundle
  | spineTiltBundle
  | narrowStanceBundle
  | generic (issue : Issue)
deriving DecidableEq, Repr

/-- The exact-string lookup of `_generate_recommendations` for one issue. -/
def recommendation_for : Issue → Recommendation
  | .insufficientSeparation => .separationBundle
  | .reverseKinematicSequence => .reverseSequenceBundle
  | .insufficientSpineTilt => .spineTiltBundle
  | .narrowStance => .narrowStanceBundle
  | i => .generic i

/-- `_generate_recommendations`. -/
def generate_recommendations (issues : List Issue) : List Recommendation :=
  issues.map recommendation_for

/-! ### Performance scoring (`_calculate_performance_scores`) -/

/-- The four scores.  All numeric scores are rationals (Python floats). -/
structure PerformanceScores where
  kinematic_sequence_score : ℚ
  spatial_mechanics_score : ℚ
  temporal_efficiency_score : ℚ
  overall_score : ℚ
deriving DecidableEq, Repr

/-- Whether an issue's lowercase text contains one of the scorer's keywords
`'separation'`, `'stance'`, `'tilt'`, `'posture'` (checked against the
literal strings listed at `Issue`): both separation issues, both tilt issues
and both stance issues match; the two kinematic-sequence issues do not. -/
def matchesSpatialKeyword : Issue → Bool
  | .insufficientSeparation => true
  | .excessiveSeparation => true
  | .insufficientSpineTilt => true
  | .excessiveSpineTilt => true
  | .narrowStance => true
  | .wideStance => true
  | .reverseKinematicSequence => false
  | .poorKinematicTiming => false

/-- `_calculate_performance_scores`, as a function of the parts of `analysis`
it reads (kinematic result, detected issues, temporal result).  The source's
decimal literals are written as exact fractions: `1.5 = 3/2`, `1.25 = 5/4`,
`0.4 = 2/5`, `0.2 = 1/5`. -/
def calculate_performance_scores (kin : KinematicSequence) (issues : List Issue)
    (temporal : TemporalAnalysis) : PerformanceScores :=
  let k : ℚ :=
    match kin.energy_transfer with
    | .optimal => 95
    | .good => 80
    | .poor => 60
    | .reverse => 30
  let issues_found : ℕ := (issues.filter matchesSpatialKeyword).length
  let s : ℚ := max 0 (100 - ((issues_found : ℚ) / 4) * 100)
  let t : ℚ :=
    if 1 ≤ temporal.total_swing_time ∧ temporal.total_swing_time ≤ 3/2 then 90
    else max 0 (90 - |temporal.total_swing_time - 5/4| * 40)
  { kinematic_sequence_score := k,
    spatial_mechanics_score := s,
    temporal_efficiency_score := t,
    overall_score := k * (2/5) + s * (2/5) + t * (1/5) }

/-! ### Top-level pipeline (`analyze_swing_3d`) -/

/-- The full analysis result dictionary (the constant empty
`visualization_data` field is omitted). -/
structure AnalysisResult where
  swing_phases : Option Phases
  kinematic_sequence : KinematicSequence
  spatial_analysis : SpatialAnalysis
  temporal_analysis : TemporalAnalysis
  issues_detected : List Issue
  recommendations : List Recommendation
  performance_scores : PerformanceScores
deriving DecidableEq, Repr

/-- The pipeline of `analyze_swing_3d` once the frame sequence has been
obtained from `pose_data['pose_sequence']`: the sub-analyzers run first,
the issue detector consumes the spatial and kinematic results, and the
recommendation generator and scorer consume the detected issues. -/
def analyze_swing_seq (gm : Geom) (cfg : IdealMetrics) (seq : List Frame) : AnalysisResult :=
  { swing_phases := identify_swing_phases gm seq,
    kinematic_sequence := analyze_kinematic_sequence gm seq,
    spatial_analysis := analyze_spatial_mechanics gm seq,
    temporal_analysis := analyze_temporal_mechanics gm seq,
    issues_detected :=
      detect_3d_issues cfg (analyze_spatial_mechanics gm seq) (analyze_kinematic_sequence gm seq),
    recommendations := generate_recommendations
      (detect_3d_issues cfg (analyze_spatial_mechanics gm seq) (analyze_kinematic_sequence gm seq)),
    performance_scores := calculate_performance_scores (analyze_kinematic_sequence gm seq)
      (detect_3d_issues cfg (analyze_spatial_mechanics gm seq) (analyze_kinematic_sequence gm seq))
      (analyze_temporal_mechanics gm seq) }

/-- `analyze_swing_3d`: every sub-analyzer starts with
`pose_data['pose_sequence']`, so a `pose_data` without that key raises
`KeyError` (modelled as `none`) regardless of any `'poses'` entry. -/
def analyze_swing_3d (gm : Geom) (cfg : IdealMetrics) (pd : PoseData) :
    Option AnalysisResult :=
  pd.pose_sequence.map (analyze_swing_seq gm cfg)

/-! ### Concrete geometry surrogate and test inputs

`gmQ` is a computable stand-in for the transcendental primitives, exact on
every input exercised by the concrete sequences below: all vectors fed to the
norm there are axis-aligned (so the norm is `|x| = ratSqrt (x^2)`), and all
`atan2` arguments are the directions `(0, 1)` (0 degrees) and `(1, 1)`
(45 degrees).  The bridging lemmas `ratSqrt_sq_900`, `real_sqrt_900`,
`atan2_deg_of_one_one` and `atan2_deg_of_zero_one` below pin these values to
the true mathematical ones. -/

/-- Largest `k` with `k * k ≤ n`, by linear search (structurally recursive,
so it evaluates inside the kernel, unlike `Nat.sqrt`). -/
def natSqrtLin (n : ℕ) : ℕ :=
  (((List.range (n + 1)).filter fun k => k * k ≤ n).getLast?).getD 0

/-- Exact rational square root where one exists (numerator and denominator
perfect squares); only ever applied to such inputs in this file. -/
def ratSqrt (q : ℚ) : ℚ := (natSqrtLin q.num.toNat : ℚ) / (natSqrtLin q.den : ℚ)

/-- Surrogate for `math.degrees(math.atan2 y x)`, exact on the two argument
directions used by the concrete inputs of this file: `atan2 0 1 = 0` and
`atan2 1 1 = π/4`, i.e. 45 degrees. -/
def atan2DegQ (y x : ℚ) : ℚ :=
  if y = 0 ∧ 0 < x then 0
  else if y = x ∧ 0 < x then 45
  else if x = 0 ∧ 0 < y then 90
  else 0

/-- The concrete `Geom` instantiation used by counterexamples and witnesses.
(The `acosDeg` component is never exercised by the concrete inputs.) -/
def gmQ : Geom := { sqrtA := ratSqrt, acosDeg := fun _ => 0, atan2Deg := atan2DegQ }

/-- A frame holding a single right-wrist landmark at `(x, 0, 0)`. -/
def wristFrame (x : ℚ) : Frame := { landmarks_3d := [⟨nmRightWrist, x, 0, 0⟩] }

/-- 20 frames whose right wrist sits at `x = 0` through frame 10 and at
`x = 1` from frame 11 on: 19 velocity samples, a single velocity-magnitude
spike of 30 at index 10, which `find_peaks` reports as the one peak. -/
def seq20 : List Frame := (List.range 20).map fun i => wristFrame (if i ≤ 10 then 0 else 1)

/-- The phase dictionary produced on `seq20`: contact frame 10, and
`follow_through` ending at frame 19 = `total_frames - 1`. -/
def phases20 : Phases :=
  { stance := ⟨0, 5⟩, load := ⟨5, 6⟩, stride := ⟨6, 10⟩,
    swing := ⟨10, 10⟩, contact := ⟨10, 13⟩, follow_through := ⟨13, 19⟩ }

/-- 5 frames with a stationary right wrist: a wrist trajectory exists but
there are only 4 velocity samples (fewer than 11). -/
def seq5 : List Frame := List.replicate 5 (wristFrame 0)

/-- A frame carrying hip and shoulder lines: each line runs from the origin
(right landmark) to `(1, 1)` when the flag is true (45 degrees) or `(1, 0)`
when it is false (0 degrees). -/
def kinFrame (hip45 sh45 : Bool) : Frame :=
  { landmarks_3d :=
      [⟨nmLeftShoulder, 1, if sh45 then 1 else 0, 0⟩, ⟨nmRightShoulder, 0, 0, 0⟩,
       ⟨nmLeftHip, 1, if hip45 then 1 else 0, 0⟩, ⟨nmRightHip, 0, 0, 0⟩] }

/-- 25 frames whose hip and shoulder rotation series are the *same* step
function (0 degrees through frame 11, 45 degrees from frame 12): both
initiation indices are detected and equal (= 11). -/
def seqEq : List Frame :=
  List.replicate 12 (kinFrame false false) ++ List.replicate 13 (kinFrame true true)

/-- 60 frames: hip rotation steps from 0 to 45 degrees between frames 20 and
21 (initiation index 20), shoulder rotation between frames 23 and 24
(initiation index 23) — the C6 scenario, hips jumping at frame 20 and
shoulders at frame 23. -/
def seq60 : List Frame :=
  List.replicate 21 (kinFrame false false) ++ List.replicate 3 (kinFrame true false) ++
    List.replicate 36 (kinFrame true true)

/-- 2 frames with the right wrist moving from `(0,0,0)` to `(1,0,0)`: one
velocity sample of magnitude 30, peak index 0. -/
def seqTwo : List Frame := [wristFrame 0, wristFrame 1]

/-- 3 frames with no landmarks at all: a nonempty sequence with an empty
wrist trajectory. -/
def seqNoJoints : List Frame := List.replicate 3 { landmarks_3d := [] }

/-! ### Claim-statement helpers -/

/-- Membership of frame `k` in a phase range taken as the half-open interval
`[start, stop)`. -/
def inRange (r : PhaseRange) (k : ℕ) : Prop := r.start ≤ k ∧ k < r.stop

instance (r : PhaseRange) (k : ℕ) : Decidable (inRange r k) := by
  unfold inRange; infer_instance

/-- Frame `k` lies in some phase of the map. -/
def phasesCover (P : Phases) (k : ℕ) : Prop :=
  inRange P.stance k ∨ inRange P.load k ∨ inRange P.stride k ∨
    inRange P.swing k ∨ inRange P.contact k ∨ inRange P.follow_through k

instance (P : Phases) (k : ℕ) : Decidable (phasesCover P k) := by
  unfold phasesCover; infer_instance

/-- The six ranges chain: stance starts at frame 0 and each phase's start is
the previous phase's end. -/
def chained (P : Phases) : Prop :=
  P.stance.start = 0 ∧ P.load.start = P.stance.stop ∧ P.stride.start = P.load.stop ∧
    P.swing.start = P.stride.stop ∧ P.contact.start = P.swing.stop ∧
    P.follow_through.start = P.contact.stop

instance (P : Phases) : Decidable (chained P) := by
  unfold chained; infer_instance

/-- Both segments have a detected initiation index (the guard
`len(hip_start) > 0 and len(shoulder_start) > 0` of the source). -/
def bothInitiationsDetected (gm : Geom) (seq : List Frame) : Prop :=
  initiation_indices (calculate_segment_rotation gm seq .hips) ≠ [] ∧
    initiation_indices (calculate_segment_rotation gm seq .shoulders) ≠ []

instance (gm : Geom) (seq : List Frame) : Decidable (bothInitiationsDetected gm seq) := by
  unfold bothInitiationsDetected; infer_instance

/-! ## Theorems

`Rat.mul`/`Rat.inv`/`Rat.add`/`Rat.sub` are `@[irreducible]` in Batteries;
they are unsealed here so that concrete rational computations can be settled
by `decide` (kernel reduction). -/

unseal Rat.mul Rat.inv Rat.add Rat.sub

set_option maxRecDepth 200000

/-! ### Supporting lemmas -/

/-- Justification of the squared encoding in `initiation_indices`: for a
nonnegative `s` (a standard deviation), `|a| > 2·s` iff `a² > 4·s²`. -/
theorem abs_gt_two_std_iff_sq (a s : ℝ) (hs : 0 ≤ s) :
    2 * s < |a| ↔ 4 * s ^ 2 < a ^ 2 := by
  constructor <;> intro h
  · nlinarith [abs_nonneg a, sq_abs a]
  · nlinarith [abs_nonneg a, sq_abs a, sq_nonneg (|a| + 2 * s)]

/-- `natSqrtLin` agrees with the mathematical square root on the only
nontrivial input the concrete sequences feed it (`30² = 900` from a velocity
jump of magnitude 30). -/
theorem ratSqrt_900_matches_real_sqrt :
    ratSqrt 900 = 30 ∧ Real.sqrt 900 = 30 := by
  constructor
  · decide
  · rw [show (900 : ℝ) = 30 ^ 2 by norm_num]
    exact Real.sqrt_sq (by norm_num)

/-- `atan2DegQ` agrees with `math.degrees(math.atan2 y x)` on the two
directions appearing in the concrete sequences: `atan2 1 1 = arctan 1 = π/4`
is 45 degrees and `atan2 0 1 = arctan 0 = 0` is 0 degrees. -/
theorem atan2DegQ_matches_arctan :
    atan2DegQ 1 1 = 45 ∧ Real.arctan 1 * (180 / Real.pi) = 45 ∧
      atan2DegQ 0 1 = 0 ∧ Real.arctan 0 * (180 / Real.pi) = 0 := by
  refine ⟨by decide, ?_, by decide, ?_⟩
  · rw [Real.arctan_one]
    field_simp
    ring
  · rw [Real.arctan_zero]
    ring

theorem plateau_scan_le (x : List ℚ) (iMax : ℕ) (v : ℚ) :
    ∀ fuel j, j ≤ iMax → plateau_scan x iMax v fuel j ≤ iMax := by
  intro fuel
  induction fuel with
  | zero => intro j hj; simpa [plateau_scan] using hj
  | succ n ih =>
    intro j hj
    unfold plateau_scan
    split
    · next hc => exact ih (j + 1) hc.1
    · exact hj

theorem local_maxima_aux_mem_lt (x : List ℚ) :
    ∀ fuel i p, p ∈ local_maxima_aux x fuel i → p + 1 < x.length := by
  intro fuel
  induction fuel with
  | zero => intro i p hp; simp [local_maxima_aux] at hp
  | succ n ih =>
    intro i p hp
    unfold local_maxima_aux at hp
    by_cases h1 : i + 1 < x.length
    · rw [if_pos h1] at hp
      by_cases h2 : x.getD (i - 1) 0 < x.getD i 0
      · rw [if_pos h2] at hp
        by_cases h3 : x.getD (plateau_scan x (x.length - 1) (x.getD i 0) x.length (i + 1)) 0
            < x.getD i 0
        · rw [if_pos h3] at hp
          rcases List.mem_cons.mp hp with rfl | hp'
          · have ha : plateau_scan x (x.length - 1) (x.getD i 0) x.length (i + 1) ≤
                x.length - 1 := plateau_scan_le x _ _ _ _ (by omega)
            omega
          · exact ih _ _ hp'
        · rw [if_neg h3] at hp
          exact ih _ _ hp
      · rw [if_neg h2] at hp
        exact ih _ _ hp
    · rw [if_neg h1] at hp
      simp at hp

/-- Every peak index returned by `find_peaks` is strictly below the last
index of the signal. -/
theorem find_peaks_mem_lt (x : List ℚ) (h : ℚ) (p : ℕ) (hp : p ∈ find_peaks x h) :
    p + 1 < x.length :=
  local_maxima_aux_mem_lt x _ _ _ (List.mem_filter.mp hp).1

theorem calculate_velocity_length (l : List Vec3) :
    (calculate_velocity l).length = l.length - 1 := by
  simp [calculate_velocity]

theorem extract_joint_trajectory_length_le (seq : List Frame) (nm : String) :
    (extract_joint_trajectory seq nm).length ≤ seq.length :=
  List.length_filterMap_le _ _

theorem wristTrajectory_length_le (seq : List Frame) :
    (wristTrajectory seq).length ≤ seq.length := by
  simp only [wristTrajectory]
  split
  · exact extract_joint_trajectory_length_le seq nmLeftWrist
  · exact extract_joint_trajectory_length_le seq nmRightWrist

theorem argmaxAux_lt (l : List ℚ) :
    ∀ best bestI i, bestI < i → argmaxAux best bestI i l < i + l.length := by
  induction l with
  | nil => intro best bestI i h; simpa [argmaxAux] using h
  | cons a rest ih =>
    intro best bestI i h
    unfold argmaxAux
    split
    · have := ih a i (i + 1) (by omega)
      simpa [Nat.add_assoc, Nat.add_comm 1 rest.length] using this
    · have := ih best bestI (i + 1) (by omega)
      simpa [Nat.add_assoc, Nat.add_comm 1 rest.length] using this

theorem argmaxIdx_lt_length (l : List ℚ) (h : l ≠ []) : argmaxIdx l < l.length := by
  cases l with
  | nil => exact absurd rfl h
  | cons a rest =>
    have := argmaxAux_lt rest a 0 1 (by omega)
    simpa [argmaxIdx, Nat.add_comm] using this

/-- The empty rotation series yields no initiation indices. -/
theorem initiation_indices_nil : initiation_indices [] = [] := by
  simp [initiation_indices, diffs]

/-- `kinCore` never produces the `'poor'` tag: in the hips-lead branch the
lead time `s0 - h0` is at least 1, so the two preceding branches always fire. -/
theorem kinCore_ne_poor (hip sh : List ℚ) :
    (kinCore hip sh).energy_transfer ≠ .poor := by
  unfold kinCore
  split
  · simp [kinDefault]
  · cases hI : initiation_indices hip with
    | nil => simp [kinDefault]
    | cons h0 t0 =>
      cases hS : initiation_indices sh with
      | nil => simp [kinDefault]
      | cons s0 t1 =>
        dsimp only
        by_cases hlt : h0 < s0
        · rw [if_pos hlt]
          simp only
          split_ifs with h2 h1
          · simp
          · simp
          · exact absurd (by omega : 1 ≤ s0 - h0) h1
        · rw [if_neg hlt]
          simp

/-! ### Claim C1 -/

/-- Claim C1, counterexample.  The claim asserts that an empty Sequence gives
`overall_score = 0`; on the code the empty sequence yields `overall_score =
86` (kinematic 95 from the degenerate `'optimal'` default, spatial 100,
temporal 40), and `86 = 0` is false. -/
theorem C1_counterexample :
    (analyze_swing_3d gmQ defaultIdealMetrics ⟨some [], none⟩).map
        (fun r => r.performance_scores.overall_score) = some 86 ∧
      ((86 : ℚ) = 0) = False := by
  exact ⟨by decide, eq_false (by norm_num)⟩

/-- Claim C1, amended.  For an empty Sequence, `analyze_swing_3d` raises no
exception and every sub-analyzer returns a zero/empty result — except that
`energy_transfer` defaults to `'optimal'` — so the Performance Scorer returns
kinematic 95, spatial 100, temporal 40 and `overall_score = 86`, not 0.
(Universally quantified over the geometry primitives and the reference
ranges, neither of which is consulted on the empty input.) -/
theorem C1_empty_sequence_amended (gm : Geom) (cfg : IdealMetrics)
    (p : Option (List Frame)) :
    analyze_swing_3d gm cfg ⟨some [], p⟩ = some
      { swing_phases := none,
        kinematic_sequence := kinDefault,
        spatial_analysis := ⟨[], [], [], [], 0⟩,
        temporal_analysis := zeroTemporal,
        issues_detected := [],
        recommendations := [],
        performance_scores := ⟨95, 100, 40, 86⟩ } := by
  have hkin : analyze_kinematic_sequence gm ([] : List Frame) = kinDefault := rfl
  have hsp : analyze_spatial_mechanics gm ([] : List Frame) = ⟨[], [], [], [], 0⟩ := rfl
  have htm : analyze_temporal_mechanics gm ([] : List Frame) = zeroTemporal := rfl
  have hph : identify_swing_phases gm ([] : List Frame) = none := rfl
  have hiss : detect_3d_issues cfg ⟨[], [], [], [], 0⟩ kinDefault = [] := rfl
  have hsc : calculate_performance_scores kinDefault [] zeroTemporal = ⟨95, 100, 40, 86⟩ := by
    decide
  show some (analyze_swing_seq gm cfg []) = _
  refine congrArg some ?_
  unfold analyze_swing_seq
  rw [hkin, hsp, htm, hph, hiss, hsc]
  rfl

/-! ### Claim C8 -/

/-- Claim C8 (code bug).  The claim — and the spec — require the engine to
accept a frame list under either the key `'pose_sequence'` or the historical
key `'poses'` with identical results.  The code reads only
`pose_data['pose_sequence']`: with the frames under `'poses'` alone it raises
`KeyError` (modelled as `none`), while the same frames under
`'pose_sequence'` are analyzed (`isSome`).  This contradicts the repository's
own loader `_load_and_validate_pose_data`, which guarantees only the key
`'poses'` before calling `analyze_swing_3d`. -/
theorem C8_poses_key_not_accepted :
    analyze_swing_3d gmQ defaultIdealMetrics ⟨none, some []⟩ = none ∧
      (analyze_swing_3d gmQ defaultIdealMetrics ⟨some [], none⟩).isSome = true := by
  exact ⟨rfl, rfl⟩

/-! ### Claim C6 -/

/-- Claim C6 (confirmed).  `seq60` has 60 frames; its hip-line rotation
series is the step function that is 0 degrees up to and including frame 20
and 45 degrees afterwards (the jump at frame 20), and its shoulder-line
rotation series jumps likewise at frame 23.  The Kinematic Sequence Analyzer
returns `hip_initiation_time = 20`, `shoulder_initiation_time = 23`, lead
time 3, `energy_transfer = 'optimal'` and `sequence_efficiency = 30`. -/
theorem C6_step_scenario :
    seq60.length = 60 ∧
    calculate_segment_rotation gmQ seq60 .hips =
      List.replicate 21 0 ++ List.replicate 39 45 ∧
    calculate_segment_rotation gmQ seq60 .shoulders =
      List.replicate 24 0 ++ List.replicate 36 45 ∧
    analyze_kinematic_sequence gmQ seq60 =
      { hip_initiation_time := 20, shoulder_initiation_time := 23,
        hip_peak_velocity := 0, shoulder_peak_velocity := 0,
        sequence_efficiency := 30, energy_transfer := .optimal } ∧
    (analyze_kinematic_sequence gmQ seq60).shoulder_initiation_time -
      (analyze_kinematic_sequence gmQ seq60).hip_initiation_time = 3 := by
  refine ⟨by decide, by decide, by decide, by decide, by decide⟩

/-! ### Claim C4 -/

/-- Claim C4, counterexample.  `seq5` has a wrist trajectory of 5 samples,
hence 4 velocity samples (fewer than 11); the claim says the phase map is
empty, but `_identify_swing_phases` returns the six-entry all-zero map, which
is not the empty map. -/
theorem C4_counterexample :
    identify_swing_phases gmQ seq5 = some allZeroPhases ∧
      (calculate_velocity (wristTrajectory seq5)).length = 4 ∧
      (some allZeroPhases = (none : Option Phases)) = False := by
  exact ⟨by decide, by decide, eq_false (by simp)⟩

/-- Claim C4, amended.  When no wrist trajectory (right or left) exists —
including the empty Sequence — `_identify_swing_phases` returns the empty
map; but when a trajectory exists with fewer than 11 velocity samples
(trajectory length at most 11) it returns the six-entry map with every phase
range `[0, 0)`, not the empty map.  Neither case raises. -/
theorem C4_degenerate_phase_map (gm : Geom) (seq : List Frame) :
    (wristTrajectory seq = [] → identify_swing_phases gm seq = none) ∧
    (wristTrajectory seq ≠ [] → (wristTrajectory seq).length ≤ 11 →
      identify_swing_phases gm seq = some allZeroPhases) := by
  constructor
  · intro hw
    unfold identify_swing_phases
    by_cases h0 : seq = []
    · rw [if_pos h0]
    · rw [if_neg h0, if_pos hw]
  · intro hw hlen
    have h0 : seq ≠ [] := by
      intro hE
      subst hE
      exact hw rfl
    unfold identify_swing_phases
    rw [if_neg h0, if_neg hw, if_neg (by rw [calculate_velocity_length]; omega)]

/-- Claim C4, witness: the amended theorem applied to `seq5`. -/
theorem C4_witness : identify_swing_phases gmQ seq5 = some allZeroPhases :=
  (C4_degenerate_phase_map gmQ seq5).2 (by decide) (by decide)

/-! ### Claim C7 -/

/-- Claim C7, counterexample.  On `seqTwo` (one velocity sample, peak at
index 0) the claim predicts a deceleration duration of `(samples strictly
after the peak)/30 = 0/30 = 0`, but the code returns `(1 - 0)/30 = 1/30`.
On `seqNoJoints` (3 frames, empty wrist trajectory) the claim predicts an
all-zero temporal result, but the code returns `total_swing_time = 1/10`. -/
theorem C7_counterexample :
    analyze_temporal_mechanics gmQ seqTwo = ⟨1/15, 0, 1/30, 0⟩ ∧
      ((1 : ℚ) / 30 = 0 / 30) = False ∧
      analyze_temporal_mechanics gmQ seqNoJoints = ⟨1/10, 0, 0, 0⟩ ∧
      (analyze_temporal_mechanics gmQ seqNoJoints = zeroTemporal) = False := by
  exact ⟨by decide, eq_false (by norm_num), by decide, eq_false (by decide)⟩

/-- Claim C7, amended.  The acceleration-phase duration is `(index of peak
wrist speed)/30` as claimed, but the deceleration-phase duration is
`(len - peak)/30` — the number of samples strictly after the peak *plus one*
(the peak sample itself) over 30.  When the right-wrist trajectory produces
no velocity samples only the acceleration/deceleration durations and timing
efficiency are zero, while `total_swing_time = total_frames/30`; the result
is all-zero exactly when the Sequence itself is empty. -/
theorem C7_temporal_durations (gm : Geom) (seq : List Frame) :
    (seq ≠ [] →
      (calculate_velocity (extract_joint_trajectory seq nmRightWrist)).map (norm3 gm) ≠ [] →
      (analyze_temporal_mechanics gm seq).acceleration_phase_duration =
        (argmaxIdx ((calculate_velocity (extract_joint_trajectory seq nmRightWrist)).map
          (norm3 gm)) : ℚ) / 30 ∧
      (analyze_temporal_mechanics gm seq).deceleration_phase_duration =
        ((((calculate_velocity (extract_joint_trajectory seq nmRightWrist)).map
            (norm3 gm)).length - 1 -
          argmaxIdx ((calculate_velocity (extract_joint_trajectory seq nmRightWrist)).map
            (norm3 gm)) + 1 : ℕ) : ℚ) / 30) ∧
    (seq ≠ [] →
      (calculate_velocity (extract_joint_trajectory seq nmRightWrist)).map (norm3 gm) = [] →
      analyze_temporal_mechanics gm seq =
        { zeroTemporal with total_swing_time := (seq.length : ℚ) / 30 }) ∧
    (seq = [] → analyze_temporal_mechanics gm seq = zeroTemporal) := by
  refine ⟨?_, ?_, ?_⟩
  · intro h0 hm
    have hext : extract_joint_trajectory seq nmRightWrist ≠ [] := by
      intro hE
      apply hm
      rw [hE]
      rfl
    have hlt := argmaxIdx_lt_length _ hm
    unfold analyze_temporal_mechanics
    rw [if_neg h0, if_neg hext, if_neg hm]
    refine ⟨rfl, ?_⟩
    have hn : ((calculate_velocity (extract_joint_trajectory seq nmRightWrist)).map
          (norm3 gm)).length -
        argmaxIdx ((calculate_velocity (extract_joint_trajectory seq nmRightWrist)).map
          (norm3 gm)) =
        ((calculate_velocity (extract_joint_trajectory seq nmRightWrist)).map
            (norm3 gm)).length - 1 -
          argmaxIdx ((calculate_velocity (extract_joint_trajectory seq nmRightWrist)).map
            (norm3 gm)) + 1 := by
      omega
    rw [hn]
  · intro h0 hm
    by_cases hext : extract_joint_trajectory seq nmRightWrist = []
    · unfold analyze_temporal_mechanics
      rw [if_neg h0, if_pos hext]
    · unfold analyze_temporal_mechanics
      rw [if_neg h0, if_neg hext, if_pos hm]
  · intro h0
    unfold analyze_temporal_mechanics
    rw [if_pos h0]

/-- Claim C7, witness: the amended theorem applied to `seqTwo`, where the
peak index is 0 out of 1 velocity sample. -/
theorem C7_witness :
    (analyze_temporal_mechanics gmQ seqTwo).acceleration_phase_duration =
      (argmaxIdx ((calculate_velocity (extract_joint_trajectory seqTwo nmRightWrist)).map
        (norm3 gmQ)) : ℚ) / 30 ∧
    (analyze_temporal_mechanics gmQ seqTwo).deceleration_phase_duration =
      ((((calculate_velocity (extract_joint_trajectory seqTwo nmRightWrist)).map
          (norm3 gmQ)).length - 1 -
        argmaxIdx ((calculate_velocity (extract_joint_trajectory seqTwo nmRightWrist)).map
          (norm3 gmQ)) + 1 : ℕ) : ℚ) / 30 :=
  (C7_temporal_durations gmQ seqTwo).1 (by decide) (by decide)

/-! ### Claim C3 -/

/-- Claim C3, counterexample.  `seqEq` gives identical hip and shoulder
rotation series, so both initiation indices are detected and equal (= 11);
the code tags the transfer `'reverse'` although the shoulder index is *not*
strictly less than the hip index, refuting the claimed equivalence. -/
theorem C3_counterexample :
    bothInitiationsDetected gmQ seqEq ∧
      (analyze_kinematic_sequence gmQ seqEq).energy_transfer = .reverse ∧
      (analyze_kinematic_sequence gmQ seqEq).shoulder_initiation_time = 11 ∧
      (analyze_kinematic_sequence gmQ seqEq).hip_initiation_time = 11 ∧
      ((analyze_kinematic_sequence gmQ seqEq).shoulder_initiation_time <
        (analyze_kinematic_sequence gmQ seqEq).hip_initiation_time) = False := by
  refine ⟨by decide, by decide, by decide, by decide, eq_false (by decide)⟩

/-- `kinCore` tags `'reverse'` exactly when the first shoulder initiation
index is less than *or equal to* the first hip initiation index (the source's
`else` of `hip_start[0] < shoulder_start[0]`). -/
theorem kinCore_reverse_iff (hip sh : List ℚ)
    (hh : initiation_indices hip ≠ []) (hs : initiation_indices sh ≠ []) :
    ((kinCore hip sh).energy_transfer = .reverse ↔
      (kinCore hip sh).shoulder_initiation_time ≤ (kinCore hip sh).hip_initiation_time) := by
  have hhne : hip ≠ [] := by
    intro hE
    exact hh (by rw [hE, initiation_indices_nil])
  have hsne : sh ≠ [] := by
    intro hE
    exact hs (by rw [hE, initiation_indices_nil])
  unfold kinCore
  rw [if_neg (by simp [hhne, hsne])]
  cases hI : initiation_indices hip with
  | nil => exact absurd hI hh
  | cons h0 t0 =>
    cases hS : initiation_indices sh with
    | nil => exact absurd hS hs
    | cons s0 t1 =>
      dsimp only
      by_cases hlt : h0 < s0
      · rw [if_pos hlt]
        constructor
        · intro hEq
          exfalso
          revert hEq
          dsimp only
          split_ifs <;> simp
        · intro hle
          dsimp only at hle
          omega
      · rw [if_neg hlt]
        constructor
        · intro _
          dsimp only
          omega
        · intro _
          rfl

/-- Claim C3, amended.  When both initiation indices are detected, the
kinematic result has `energy_transfer = 'reverse'` iff the shoulder
initiation index is less than **or equal to** the hip initiation index (the
strict inequality of the claim fails at equality). -/
theorem C3_reverse_iff_shoulder_le_hip (gm : Geom) (seq : List Frame)
    (h : bothInitiationsDetected gm seq) :
    ((analyze_kinematic_sequence gm seq).energy_transfer = .reverse ↔
      (analyze_kinematic_sequence gm seq).shoulder_initiation_time ≤
        (analyze_kinematic_sequence gm seq).hip_initiation_time) :=
  kinCore_reverse_iff _ _ h.1 h.2

/-- Claim C3, witness: the amended theorem applied to `seqEq`, where both
indices equal 11 and the tag is `'reverse'`. -/
theorem C3_witness :
    ((analyze_kinematic_sequence gmQ seqEq).energy_transfer = .reverse ↔
      (analyze_kinematic_sequence gmQ seqEq).shoulder_initiation_time ≤
        (analyze_kinematic_sequence gmQ seqEq).hip_initiation_time) :=
  C3_reverse_iff_shoulder_le_hip gmQ seqEq (by decide)

/-! ### Claim C2 -/

/-- The all-zero map is chained and covers nothing. -/
theorem allZeroPhases_chained_covers_nothing :
    chained allZeroPhases ∧ ∀ k, ¬ phasesCover allZeroPhases k := by
  refine ⟨by decide, ?_⟩
  intro k
  simp [phasesCover, inRange, allZeroPhases]

/-- Claim C2, counterexample.  On `seq20` (20 frames, contact frame 10) the
returned phase map is nonempty, but frame 19 — the last frame of
`[0, total_frames)` — lies in none of the six half-open ranges
(`follow_through` ends at `total_frames - 1 = 19`), so the union does not
cover `[0, 20)`. -/
theorem C2_counterexample :
    identify_swing_phases gmQ seq20 = some phases20 ∧ seq20.length = 20 ∧
      (phasesCover phases20 19) = False := by
  refine ⟨by decide, by decide, eq_false (by decide)⟩

/-- Claim C2, amended.  Whenever `_identify_swing_phases` returns a non-empty
phase map, the six ranges are chained (stance starts at 0 and each phase's
start equals the previous phase's end), but they need not be monotone — an
earlier phase's end may exceed a later phase's start, so as half-open
intervals they can overlap — and the union never contains frame
`total_frames - 1` (`follow_through` ends at `total_frames - 1`, exclusive),
hence never covers `[0, total_frames)`. -/
theorem C2_phases_chained_never_cover_last (gm : Geom) (seq : List Frame) (P : Phases)
    (h : identify_swing_phases gm seq = some P) :
    chained P ∧ ¬ phasesCover P (seq.length - 1) := by
  unfold identify_swing_phases at h
  by_cases h0 : seq = []
  · rw [if_pos h0] at h
    exact absurd h (by simp)
  rw [if_neg h0] at h
  by_cases h1 : wristTrajectory seq = []
  · rw [if_pos h1] at h
    exact absurd h (by simp)
  rw [if_neg h1] at h
  by_cases h2 : 10 < (calculate_velocity (wristTrajectory seq)).length
  · rw [if_pos h2] at h
    cases hpk : find_peaks ((calculate_velocity (wristTrajectory seq)).map (norm3 gm))
        (mean ((calculate_velocity (wristTrajectory seq)).map (norm3 gm))) with
    | nil =>
      rw [hpk] at h
      dsimp only at h
      obtain rfl : allZeroPhases = P := Option.some.inj h
      exact ⟨allZeroPhases_chained_covers_nothing.1,
        allZeroPhases_chained_covers_nothing.2 _⟩
    | cons c cRest =>
      rw [hpk] at h
      dsimp only at h
      obtain rfl : buildPhases seq.length c = P := Option.some.inj h
      have hcmem : c ∈ find_peaks ((calculate_velocity (wristTrajectory seq)).map (norm3 gm))
          (mean ((calculate_velocity (wristTrajectory seq)).map (norm3 gm))) := by
        rw [hpk]
        exact List.mem_cons_self _ _
      have hcb := find_peaks_mem_lt _ _ _ hcmem
      rw [List.length_map, calculate_velocity_length] at hcb
      have hw := wristTrajectory_length_le seq
      rw [calculate_velocity_length] at h2
      constructor
      · simp [chained, buildPhases]
      · simp only [phasesCover, inRange, buildPhases, not_or]
        omega
  · rw [if_neg h2] at h
    obtain rfl : allZeroPhases = P := Option.some.inj h
    exact ⟨allZeroPhases_chained_covers_nothing.1,
      allZeroPhases_chained_covers_nothing.2 _⟩

/-- Claim C2, witness: the amended theorem applied to `seq20`. -/
theorem C2_witness : chained phases20 ∧ ¬ phasesCover phases20 19 := by
  have h := C2_phases_chained_never_cover_last gmQ seq20 phases20 (by decide)
  have hl : seq20.length - 1 = 19 := by decide
  rwa [hl] at h

/-! ### Claim C5 -/

/-- The scorer's output satisfies the weighted-sum identity and the `[0,100]`
bound for every input: the kinematic sub-score is one of 95/80/60/30, the
spatial sub-score lies in `[0,100]` (a truncated difference), and the
temporal sub-score lies in `[0,90]`. -/
theorem perf_scores_weighted_bounded (kin : KinematicSequence) (issues : List Issue)
    (tmp : TemporalAnalysis) :
    (calculate_performance_scores kin issues tmp).overall_score =
      (2/5) * (calculate_performance_scores kin issues tmp).kinematic_sequence_score +
        (2/5) * (calculate_performance_scores kin issues tmp).spatial_mechanics_score +
        (1/5) * (calculate_performance_scores kin issues tmp).temporal_efficiency_score ∧
      0 ≤ (calculate_performance_scores kin issues tmp).overall_score ∧
      (calculate_performance_scores kin issues tmp).overall_score ≤ 100 := by
  have hm : (0:ℚ) ≤ ((issues.filter matchesSpatialKeyword).length : ℚ) / 4 * 100 := by
    positivity
  have hs1 : (0:ℚ) ≤
      max 0 (100 - ((issues.filter matchesSpatialKeyword).length : ℚ) / 4 * 100) :=
    le_max_left _ _
  have hs2 : max (0:ℚ)
      (100 - ((issues.filter matchesSpatialKeyword).length : ℚ) / 4 * 100) ≤ 100 :=
    max_le (by norm_num) (by linarith)
  have habs : (0:ℚ) ≤ |tmp.total_swing_time - 5/4| * 40 := by positivity
  have ht1 : (0:ℚ) ≤ max 0 (90 - |tmp.total_swing_time - 5/4| * 40) := le_max_left _ _
  have ht2 : max (0:ℚ) (90 - |tmp.total_swing_time - 5/4| * 40) ≤ 90 :=
    max_le (by norm_num) (by linarith)
  unfold calculate_performance_scores
  dsimp only
  cases kin.energy_transfer <;> dsimp only <;> split_ifs <;>
    exact ⟨by ring, by linarith, by linarith⟩

/-- Claim C5 (confirmed).  For every Sequence the overall score equals
`0.4·kinematic + 0.4·spatial + 0.2·temporal` (with `0.4 = 2/5` and
`0.2 = 1/5`) and lies in `[0, 100]`. -/
theorem C5_overall_score_weighted_and_bounded (gm : Geom) (cfg : IdealMetrics)
    (seq : List Frame) :
    (analyze_swing_seq gm cfg seq).performance_scores.overall_score =
      (2/5) * (analyze_swing_seq gm cfg seq).performance_scores.kinematic_sequence_score +
        (2/5) * (analyze_swing_seq gm cfg seq).performance_scores.spatial_mechanics_score +
        (1/5) * (analyze_swing_seq gm cfg seq).performance_scores.temporal_efficiency_score ∧
      0 ≤ (analyze_swing_seq gm cfg seq).performance_scores.overall_score ∧
      (analyze_swing_seq gm cfg seq).performance_scores.overall_score ≤ 100 :=
  perf_scores_weighted_bounded _ _ _

/-! ### Claim C9 -/

/-- The issue `"Poor kinematic sequence timing"` is emitted only from the
`'poor'` tag, which never occurs. -/
theorem poorTiming_not_detected (cfg : IdealMetrics) (spatial : SpatialAnalysis)
    (kin : KinematicSequence) (h : kin.energy_transfer ≠ .poor) :
    Issue.poorKinematicTiming ∉ detect_3d_issues cfg spatial kin := by
  unfold detect_3d_issues
  split_ifs <;> simp_all

/-- With the `'poor'` tag excluded, the kinematic sub-score is 95, 80 or 30. -/
theorem kin_score_of_ne_poor (kin : KinematicSequence) (issues : List Issue)
    (tmp : TemporalAnalysis) (h : kin.energy_transfer ≠ .poor) :
    (calculate_performance_scores kin issues tmp).kinematic_sequence_score = 95 ∨
      (calculate_performance_scores kin issues tmp).kinematic_sequence_score = 80 ∨
      (calculate_performance_scores kin issues tmp).kinematic_sequence_score = 30 := by
  unfold calculate_performance_scores
  dsimp only
  cases hE : kin.energy_transfer <;> simp_all

/-- Claim C9 (confirmed).  The `energy_transfer` tag is never `'poor'` (when
hips lead, the integer lead time is at least 1, so the tag is `'optimal'` or
`'good'`; otherwise it is `'optimal'` or `'reverse'`); consequently the issue
"Poor kinematic sequence timing" is never emitted and the kinematic sub-score
is never 60 — it is 95, 80 or 30. -/
theorem C9_poor_never_emitted (gm : Geom) (cfg : IdealMetrics) (seq : List Frame) :
    ((analyze_swing_seq gm cfg seq).kinematic_sequence.energy_transfer = .optimal ∨
      (analyze_swing_seq gm cfg seq).kinematic_sequence.energy_transfer = .good ∨
      (analyze_swing_seq gm cfg seq).kinematic_sequence.energy_transfer = .reverse) ∧
    (Issue.poorKinematicTiming ∈ (analyze_swing_seq gm cfg seq).issues_detected) = False ∧
    ((analyze_swing_seq gm cfg seq).performance_scores.kinematic_sequence_score = 95 ∨
      (analyze_swing_seq gm cfg seq).performance_scores.kinematic_sequence_score = 80 ∨
      (analyze_swing_seq gm cfg seq).performance_scores.kinematic_sequence_score = 30) := by
  have hne : (analyze_swing_seq gm cfg seq).kinematic_sequence.energy_transfer ≠ .poor :=
    kinCore_ne_poor _ _
  refine ⟨?_, eq_false (poorTiming_not_detected cfg _ _ hne), ?_⟩
  · cases hE : (analyze_swing_seq gm cfg seq).kinematic_sequence.energy_transfer <;> simp_all
  · exact kin_score_of_ne_poor _ _ _ hne

/-! ### Claim C10 -/

/-- A detector range block emits nothing when the mean sits exactly on a
boundary of a well-formed range. -/
theorem rangeBlock_not_mem_boundary (i a b : Issue) (cond : Prop) [Decidable cond]
    (x lo hi : ℚ) (hlohi : lo ≤ hi) (hx : x = lo ∨ x = hi) :
    i ∉ (if cond then (if x < lo then [a] else if hi < x then [b] else []) else []) := by
  split_ifs with h1 h2 h3
  · exfalso
    rcases hx with rfl | rfl
    · exact lt_irrefl _ h2
    · linarith
  · exfalso
    rcases hx with rfl | rfl
    · linarith
    · exact lt_irrefl _ h3
  · simp
  · simp

/-- A detector range block never emits an issue other than its own two. -/
theorem rangeBlock_not_mem_other (i a b : Issue) (cond : Prop) [Decidable cond]
    (x lo hi : ℚ) (ha : i ≠ a) (hb : i ≠ b) :
    i ∉ (if cond then (if x < lo then [a] else if hi < x then [b] else []) else []) := by
  split_ifs <;> simp_all

/-- The kinematic block of the detector emits only its own two issues. -/
theorem kinBlock_not_mem (kin : KinematicSequence) (i : Issue)
    (h1 : i ≠ .reverseKinematicSequence) (h2 : i ≠ .poorKinematicTiming) :
    i ∉ (if kin.energy_transfer = .reverse then [Issue.reverseKinematicSequence]
         else if kin.energy_transfer = .poor then [Issue.poorKinematicTiming] else []) := by
  split_ifs <;> simp_all

/-- Claim C10 (confirmed).  The Issue Detector uses strict inequalities at
every range boundary: a mean exactly equal to the configured separation or
tilt endpoint (for well-formed ranges with `lo ≤ hi`), or a mean stance width
exactly `0.3` (= 3/10) or `0.8` (= 4/5), emits no issue for that metric. -/
theorem C10_boundary_strict (cfg : IdealMetrics) (hs tl st : List ℚ)
    (kin : KinematicSequence)
    (hsep : cfg.hip_shoulder_separation_3d.lo ≤ cfg.hip_shoulder_separation_3d.hi)
    (htilt : cfg.spine_tilt_deg.lo ≤ cfg.spine_tilt_deg.hi) :
    ((mean hs = cfg.hip_shoulder_separation_3d.lo ∨
        mean hs = cfg.hip_shoulder_separation_3d.hi) →
      Issue.insufficientSeparation ∉ detect_3d_issues cfg ⟨hs, tl, st, [], 0⟩ kin ∧
        Issue.excessiveSeparation ∉ detect_3d_issues cfg ⟨hs, tl, st, [], 0⟩ kin) ∧
    ((mean tl = cfg.spine_tilt_deg.lo ∨ mean tl = cfg.spine_tilt_deg.hi) →
      Issue.insufficientSpineTilt ∉ detect_3d_issues cfg ⟨hs, tl, st, [], 0⟩ kin ∧
        Issue.excessiveSpineTilt ∉ detect_3d_issues cfg ⟨hs, tl, st, [], 0⟩ kin) ∧
    ((mean st = 3/10 ∨ mean st = 4/5) →
      Issue.narrowStance ∉ detect_3d_issues cfg ⟨hs, tl, st, [], 0⟩ kin ∧
        Issue.wideStance ∉ detect_3d_issues cfg ⟨hs, tl, st, [], 0⟩ kin) := by
  have hst : (3:ℚ)/10 ≤ 4/5 := by norm_num
  refine ⟨?_, ?_, ?_⟩ <;> intro hm <;> constructor <;>
    · unfold detect_3d_issues
      dsimp only
      simp only [List.mem_append, not_or]
      refine ⟨⟨⟨?_, ?_⟩, ?_⟩, ?_⟩ <;>
        first
          | exact rangeBlock_not_mem_boundary _ _ _ _ _ _ _ hsep hm
          | exact rangeBlock_not_mem_boundary _ _ _ _ _ _ _ htilt hm
          | exact rangeBlock_not_mem_boundary _ _ _ _ _ _ _ hst hm
          | exact kinBlock_not_mem _ _ (by simp) (by simp)
          | exact rangeBlock_not_mem_other _ _ _ _ _ _ _ (by simp) (by simp)

/-- Claim C10, witness: the boundary theorem applied to the default reference
ranges with singleton series sitting exactly on the boundaries
(separation mean `0.15`, tilt mean `10`, stance mean `0.3`). -/
theorem C10_witness :
    (Issue.insufficientSeparation ∈
        detect_3d_issues defaultIdealMetrics ⟨[3/20], [10], [3/10], [], 0⟩ kinDefault) = False ∧
    (Issue.excessiveSeparation ∈
        detect_3d_issues defaultIdealMetrics ⟨[3/20], [10], [3/10], [], 0⟩ kinDefault) = False ∧
    (Issue.insufficientSpineTilt ∈
        detect_3d_issues defaultIdealMetrics ⟨[3/20], [10], [3/10], [], 0⟩ kinDefault) = False ∧
    (Issue.excessiveSpineTilt ∈
        detect_3d_issues defaultIdealMetrics ⟨[3/20], [10], [3/10], [], 0⟩ kinDefault) = False ∧
    (Issue.narrowStance ∈
        detect_3d_issues defaultIdealMetrics ⟨[3/20], [10], [3/10], [], 0⟩ kinDefault) = False ∧
    (Issue.wideStance ∈
        detect_3d_issues defaultIdealMetrics ⟨[3/20], [10], [3/10], [], 0⟩ kinDefault) = False := by
  have h := C10_boundary_strict defaultIdealMetrics [3/20] [10] [3/10] kinDefault
    (by norm_num [defaultIdealMetrics]) (by norm_num [defaultIdealMetrics])
  have h1 := h.1 (Or.inl (by norm_num [mean, defaultIdealMetrics]))
  have h2 := h.2.1 (Or.inl (by norm_num [mean, defaultIdealMetrics]))
  have h3 := h.2.2 (Or.inl (by norm_num [mean]))
  exact ⟨eq_false h1.1, eq_false h1.2, eq_false h2.1, eq_false h2.2,
    eq_false h3.1, eq_false h3.2⟩

end Swing


